import Mathlib

/-!
Verification development for the HR dashboard's Temporal Recurrence & Risk
Scoring Engine (`helper_funcs.py`, `hr_dashboard.py`).

The record store is a pandas DataFrame; we model it as a `List Employee`.
Dates (`pandas.Timestamp` at midnight) are modelled as proleptic Gregorian
calendar dates with an ordinal day number, and the anchor `datetime.now()`
as a date plus a seconds-of-day component, so that the source's comparisons
between a midnight timestamp column and `datetime.now()` are captured
exactly.  Missing values (`NaN` / `NaT`) are modelled with `Option`.
-/

/-- Gregorian leap-year test (as implemented by the `datetime`/`pandas`
calendar the source relies on). -/
def isLeap (y : Nat) : Bool :=
  (y % 4 == 0 && y % 100 != 0) || y % 400 == 0

/-- Number of days in month `m` (1-12) of year `y`. -/
def daysInMonth (y m : Nat) : Nat :=
  if m = 2 then (if isLeap y then 29 else 28)
  else if m = 4 ∨ m = 6 ∨ m = 9 ∨ m = 11 then 30
  else 31

/-- Days of year `y` that elapse strictly before month `m` starts. -/
def daysBeforeMonth (y : Nat) : Nat → Nat
  | 0 => 0
  | 1 => 0
  | m + 2 => daysBeforeMonth y (m + 1) + daysInMonth y (m + 1)

/-- Total number of days of year `y`. -/
def daysInYear (y : Nat) : Nat := daysBeforeMonth y 13

/-- Days elapsing in years `0, …, y-1`, i.e. before year `y` starts. -/
def daysBeforeYear : Nat → Nat
  | 0 => 0
  | y + 1 => daysBeforeYear y + daysInYear y

/-- A calendar date (the date part of a `pandas.Timestamp`). -/
structure Date where
  year : Nat
  month : Nat
  day : Nat
  deriving DecidableEq

/-- Day number of a date on the proleptic Gregorian time line;
differences of ordinals are the `timedelta.days` of the source. -/
def toOrdinal (d : Date) : Nat :=
  daysBeforeYear d.year + daysBeforeMonth d.year d.month + d.day

/-- A date is a real calendar date. -/
def Date.Valid (d : Date) : Prop :=
  1 ≤ d.month ∧ d.month ≤ 12 ∧ 1 ≤ d.day ∧ d.day ≤ daysInMonth d.year d.month

instance (d : Date) : Decidable d.Valid := by unfold Date.Valid; infer_instance

/-- The anchor `datetime.now()`: a date plus the seconds elapsed on that
day.  The date columns of the store sit at midnight (`sec = 0`). -/
structure Timestamp where
  date : Date
  sec : Nat
  deriving DecidableEq

/-- A timestamp measured in seconds on the time line. -/
def Timestamp.toSec (t : Timestamp) : Nat := 86400 * toOrdinal t.date + t.sec

/-- Seconds of a date column entry (midnight timestamp). -/
def dateToSec (d : Date) : Nat := 86400 * toOrdinal d

def Timestamp.Valid (t : Timestamp) : Prop := t.date.Valid ∧ t.sec < 86400

instance (t : Timestamp) : Decidable t.Valid := by
  unfold Timestamp.Valid; infer_instance

/-- The candidate occurrence built by
`strftime(f"{today.year}-%m-%d")` + `to_datetime`: the reference date with
its year replaced by the anchor's year. -/
def occurrenceThisYear (ref : Date) (now : Timestamp) : Date :=
  ⟨now.date.year, ref.month, ref.day⟩

/-- The year-rolling next occurrence computed by `get_upcoming_birthdays`
(lines 130-146) and `get_work_anniversaries` (lines 177-197): if the
candidate with this year's year is strictly before `today`, rebuild it
with `today.year + 1`. -/
def nextOccurrence (ref : Date) (now : Timestamp) : Date :=
  let cand := occurrenceThisYear ref now
  if dateToSec cand < now.toSec then ⟨now.date.year + 1, ref.month, ref.day⟩
  else cand

/-! ### Calendar arithmetic lemmas -/

theorem daysInMonth_pos (y m : Nat) : 1 ≤ daysInMonth y m := by
  unfold daysInMonth; split_ifs <;> omega

theorem daysInMonth_le_add_one (y y' m : Nat) :
    daysInMonth y m ≤ daysInMonth y' m + 1 := by
  unfold daysInMonth; split_ifs <;> omega

theorem daysBeforeMonth_succ (y m : Nat) (hm : 1 ≤ m) :
    daysBeforeMonth y (m + 1) = daysBeforeMonth y m + daysInMonth y m := by
  match m with
  | 0 => omega
  | k + 1 => rfl

theorem daysBeforeMonth_le_succ (y n : Nat) :
    daysBeforeMonth y n ≤ daysBeforeMonth y (n + 1) := by
  match n with
  | 0 => simp [daysBeforeMonth]
  | k + 1 =>
    rw [daysBeforeMonth_succ y (k + 1) (by omega)]
    omega

theorem daysBeforeMonth_mono (y : Nat) {m m' : Nat} (h : m ≤ m') :
    daysBeforeMonth y m ≤ daysBeforeMonth y m' := by
  induction h with
  | refl => exact Nat.le_refl _
  | step _ ih => exact Nat.le_trans ih (daysBeforeMonth_le_succ y _)

theorem daysBeforeMonth_add_le (y : Nat) {m m' : Nat} (hm : 1 ≤ m)
    (h : m < m') :
    daysBeforeMonth y m + daysInMonth y m ≤ daysBeforeMonth y m' := by
  rw [← daysBeforeMonth_succ y m hm]
  exact daysBeforeMonth_mono y h

/-- Within a fixed year, the day-of-year offset is strictly monotone in the
lexicographic (month, day) order. -/
theorem monthday_lt (y : Nat) {m₁ d₁ m₂ d₂ : Nat}
    (hm₁ : 1 ≤ m₁) (hd₁ : d₁ ≤ daysInMonth y m₁) (hd₂ : 1 ≤ d₂)
    (h : m₁ < m₂ ∨ (m₁ = m₂ ∧ d₁ < d₂)) :
    daysBeforeMonth y m₁ + d₁ < daysBeforeMonth y m₂ + d₂ := by
  rcases h with h | ⟨rfl, h⟩
  · have := daysBeforeMonth_add_le y hm₁ h
    omega
  · omega

/-- Within a fixed year, offset comparison coincides with the (year-free)
lexicographic (month, day) comparison. -/
theorem monthday_le_iff (y : Nat) {m₁ d₁ m₂ d₂ : Nat}
    (hm₁ : 1 ≤ m₁) (hd₁l : 1 ≤ d₁) (hd₁ : d₁ ≤ daysInMonth y m₁)
    (hm₂ : 1 ≤ m₂) (hd₂l : 1 ≤ d₂) (hd₂ : d₂ ≤ daysInMonth y m₂) :
    daysBeforeMonth y m₁ + d₁ ≤ daysBeforeMonth y m₂ + d₂ ↔
      (m₁ < m₂ ∨ (m₁ = m₂ ∧ d₁ ≤ d₂)) := by
  constructor
  · intro hle
    by_contra hcon
    have h' : m₂ < m₁ ∨ (m₂ = m₁ ∧ d₂ < d₁) := by omega
    have := monthday_lt y hm₂ hd₂ hd₁l h'
    omega
  · intro h
    rcases h with h | ⟨rfl, h⟩
    · have := monthday_lt y hm₁ hd₁ hd₂l (Or.inl h)
      omega
    · omega

/-- Lexicographic (month, day) dominance bounds the offset in any year,
even when the left date is only valid in some other year `y'` (its day can
exceed the target month length by at most one, e.g. Feb 29). -/
theorem monthday_le_of_lex (y y' : Nat) {m₁ d₁ m₂ d₂ : Nat}
    (hm₁ : 1 ≤ m₁) (hd₁ : d₁ ≤ daysInMonth y' m₁) (hd₂ : 1 ≤ d₂)
    (h : m₁ < m₂ ∨ (m₁ = m₂ ∧ d₁ ≤ d₂)) :
    daysBeforeMonth y m₁ + d₁ ≤ daysBeforeMonth y m₂ + d₂ := by
  rcases h with h | ⟨rfl, h⟩
  · have h1 : d₁ ≤ daysInMonth y m₁ + 1 :=
      Nat.le_trans hd₁ (daysInMonth_le_add_one y' y m₁)
    have h2 := daysBeforeMonth_add_le y hm₁ h
    omega
  · omega

theorem daysInYear_eq (y : Nat) :
    daysInYear y = if isLeap y then 366 else 365 := by
  cases hL : isLeap y <;>
    simp [daysInYear, daysBeforeMonth, daysInMonth, hL]

theorem daysBeforeYear_succ (y : Nat) :
    daysBeforeYear (y + 1) = daysBeforeYear y + daysInYear y := rfl

theorem daysBeforeYear_mono {y y' : Nat} (h : y ≤ y') :
    daysBeforeYear y ≤ daysBeforeYear y' := by
  induction h with
  | refl => exact Nat.le_refl _
  | step _ ih =>
    rw [daysBeforeYear_succ]
    omega

/-- A valid date's day-of-year offset fits inside its year. -/
theorem monthday_le_daysInYear (y : Nat) {m d : Nat}
    (hm₁ : 1 ≤ m) (hm₂ : m ≤ 12) (hd : d ≤ daysInMonth y m) :
    daysBeforeMonth y m + d ≤ daysInYear y := by
  have h := daysBeforeMonth_add_le y hm₁ (show m < 13 by omega)
  unfold daysInYear
  omega

theorem toOrdinal_le_year_end {d : Date} (hv : d.Valid) :
    toOrdinal d ≤ daysBeforeYear (d.year + 1) := by
  obtain ⟨h1, h2, h3, h4⟩ := hv
  have := monthday_le_daysInYear d.year h1 h2 h4
  rw [toOrdinal, daysBeforeYear_succ]
  omega

theorem year_start_lt_toOrdinal {d : Date} (hd : 1 ≤ d.day) :
    daysBeforeYear d.year < toOrdinal d := by
  rw [toOrdinal]
  omega

/-- Replacing a date's year by the next year moves its ordinal forward by at
least 365 days (month/day fixed; no validity needed, the month/day offsets
of different years differ only by the February 29 slot). -/
theorem toOrdinal_year_succ_ge (y m d : Nat) (hm₁ : 1 ≤ m) (hm₂ : m ≤ 12) :
    toOrdinal ⟨y, m, d⟩ + 365 ≤ toOrdinal ⟨y + 1, m, d⟩ := by
  simp only [toOrdinal, daysBeforeYear_succ]
  suffices h : 365 + daysBeforeMonth y m ≤ daysInYear y + daysBeforeMonth (y + 1) m by
    omega
  interval_cases m <;> cases hL : isLeap y <;> cases hL' : isLeap (y + 1) <;>
    simp [daysInYear, daysBeforeMonth, daysInMonth, hL, hL']

/-- Iterated version: `k` years forward means at least `365 * k` days. -/
theorem toOrdinal_year_add_ge (y m d k : Nat) (hm₁ : 1 ≤ m) (hm₂ : m ≤ 12) :
    toOrdinal ⟨y, m, d⟩ + 365 * k ≤ toOrdinal ⟨y + k, m, d⟩ := by
  induction k with
  | zero => simp
  | succ n ih =>
    have h := toOrdinal_year_succ_ge (y + n) m d hm₁ hm₂
    have : y + (n + 1) = (y + n) + 1 := by omega
    rw [this]
    omega

/-! ### Bounds for the year-rolling next occurrence -/

/-- The computed occurrence is never before the anchor `now`. -/
theorem nextOccurrence_ge (ref : Date) (now : Timestamp)
    (hnow : now.Valid)
    (h2 : Date.Valid ⟨now.date.year + 1, ref.month, ref.day⟩) :
    now.toSec ≤ dateToSec (nextOccurrence ref now) := by
  obtain ⟨hnd, hns⟩ := hnow
  simp only [nextOccurrence, occurrenceThisYear, dateToSec, Timestamp.toSec]
  split_ifs with h
  · have ha : toOrdinal now.date ≤ daysBeforeYear (now.date.year + 1) :=
      toOrdinal_le_year_end hnd
    have hb : daysBeforeYear (now.date.year + 1) <
        toOrdinal ⟨now.date.year + 1, ref.month, ref.day⟩ :=
      year_start_lt_toOrdinal h2.2.2.1
    simp only [Timestamp.toSec] at *
    omega
  · simp only [dateToSec, Timestamp.toSec] at h
    omega

/-- The computed occurrence is never after `now` shifted one year forward. -/
theorem nextOccurrence_le (ref : Date) (now : Timestamp)
    (hnow : now.Valid)
    (h1 : Date.Valid ⟨now.date.year, ref.month, ref.day⟩)
    (h2 : Date.Valid ⟨now.date.year + 1, ref.month, ref.day⟩)
    (h3 : Date.Valid ⟨now.date.year + 1, now.date.month, now.date.day⟩) :
    dateToSec (nextOccurrence ref now) ≤
      Timestamp.toSec ⟨⟨now.date.year + 1, now.date.month, now.date.day⟩, now.sec⟩ := by
  obtain ⟨hnd, hns⟩ := hnow
  obtain ⟨hnm₁, hnm₂, hnd₁, hnd₂⟩ := hnd
  simp only [nextOccurrence, occurrenceThisYear]
  split_ifs with h
  · -- already passed: compare the shifted candidate within year `y + 1`
    simp only [dateToSec, Timestamp.toSec] at h
    have e₁ : toOrdinal ⟨now.date.year, ref.month, ref.day⟩ =
        daysBeforeYear now.date.year +
          daysBeforeMonth now.date.year ref.month + ref.day := rfl
    have e₂ : toOrdinal now.date =
        daysBeforeYear now.date.year +
          daysBeforeMonth now.date.year now.date.month + now.date.day := rfl
    have hoff : daysBeforeMonth now.date.year ref.month + ref.day ≤
        daysBeforeMonth now.date.year now.date.month + now.date.day := by
      omega
    have h1m : 1 ≤ ref.month := h1.1
    have h1d : 1 ≤ ref.day := h1.2.2.1
    have h1dm : ref.day ≤ daysInMonth now.date.year ref.month := h1.2.2.2
    have h2dm : ref.day ≤ daysInMonth (now.date.year + 1) ref.month := h2.2.2.2
    have h3dm : now.date.day ≤ daysInMonth (now.date.year + 1) now.date.month :=
      h3.2.2.2
    have hlex := (monthday_le_iff now.date.year h1m h1d h1dm
      hnm₁ hnd₁ hnd₂).mp hoff
    have hoff' := (monthday_le_iff (now.date.year + 1) h1m h1d h2dm
      hnm₁ hnd₁ h3dm).mpr hlex
    have e₃ : toOrdinal ⟨now.date.year + 1, ref.month, ref.day⟩ =
        daysBeforeYear (now.date.year + 1) +
          daysBeforeMonth (now.date.year + 1) ref.month + ref.day := rfl
    have e₄ : toOrdinal ⟨now.date.year + 1, now.date.month, now.date.day⟩ =
        daysBeforeYear (now.date.year + 1) +
          daysBeforeMonth (now.date.year + 1) now.date.month + now.date.day := rfl
    show 86400 * toOrdinal ⟨now.date.year + 1, ref.month, ref.day⟩ ≤
        86400 * toOrdinal ⟨now.date.year + 1, now.date.month, now.date.day⟩ + now.sec
    omega
  · -- not passed yet: this year's candidate sits before next year starts
    have ha : toOrdinal ⟨now.date.year, ref.month, ref.day⟩ ≤
        daysBeforeYear (now.date.year + 1) := toOrdinal_le_year_end h1
    have hb : daysBeforeYear (now.date.year + 1) <
        toOrdinal ⟨now.date.year + 1, now.date.month, now.date.day⟩ :=
      year_start_lt_toOrdinal (d := ⟨now.date.year + 1, now.date.month, now.date.day⟩)
        hnd₁
    show 86400 * toOrdinal ⟨now.date.year, ref.month, ref.day⟩ ≤
        86400 * toOrdinal ⟨now.date.year + 1, now.date.month, now.date.day⟩ + now.sec
    omega

/-- **C1.** For every reference date (birthday or hire date) and anchor
`now`, the occurrence computed by the views' year-rolling logic carries year
`now.year + 1` exactly when the reference month/day has already passed this
year relative to `now` (this-year candidate strictly before `now`), and year
`now.year` otherwise; consequently the occurrence lies in
`[now, now + 1 year]`.  (February 29 references whose candidate is not a
real date are outside the contract, per the spec's edge-case policy.) -/
theorem C1_next_occurrence_year_and_window (ref : Date) (now : Timestamp)
    (hnow : now.Valid)
    (h1 : Date.Valid ⟨now.date.year, ref.month, ref.day⟩)
    (h2 : Date.Valid ⟨now.date.year + 1, ref.month, ref.day⟩)
    (h3 : Date.Valid ⟨now.date.year + 1, now.date.month, now.date.day⟩) :
    ((nextOccurrence ref now).year =
      if dateToSec (occurrenceThisYear ref now) < now.toSec
      then now.date.year + 1 else now.date.year) ∧
    now.toSec ≤ dateToSec (nextOccurrence ref now) ∧
    dateToSec (nextOccurrence ref now) ≤
      Timestamp.toSec ⟨⟨now.date.year + 1, now.date.month, now.date.day⟩, now.sec⟩ := by
  refine ⟨?_, nextOccurrence_ge ref now hnow h2,
    nextOccurrence_le ref now hnow h1 h2 h3⟩
  simp only [nextOccurrence, occurrenceThisYear]
  split_ifs <;> rfl

/-- Witness for C1 at the concrete input `ref = 0001-03-15`,
`now = 0005-03-01 00:00:00`: the hypotheses hold and the occurrence is
`0005-03-15`, inside the one-year window. -/
theorem C1_witness :
    Timestamp.Valid ⟨⟨5, 3, 1⟩, 0⟩ ∧
    ((nextOccurrence ⟨1, 3, 15⟩ ⟨⟨5, 3, 1⟩, 0⟩).year =
      if dateToSec (occurrenceThisYear ⟨1, 3, 15⟩ ⟨⟨5, 3, 1⟩, 0⟩) <
          Timestamp.toSec ⟨⟨5, 3, 1⟩, 0⟩
      then 5 + 1 else 5) ∧
    Timestamp.toSec ⟨⟨5, 3, 1⟩, 0⟩ ≤
      dateToSec (nextOccurrence ⟨1, 3, 15⟩ ⟨⟨5, 3, 1⟩, 0⟩) ∧
    dateToSec (nextOccurrence ⟨1, 3, 15⟩ ⟨⟨5, 3, 1⟩, 0⟩) ≤
      Timestamp.toSec ⟨⟨5 + 1, 3, 1⟩, 0⟩ :=
  ⟨by decide,
    C1_next_occurrence_year_and_window ⟨1, 3, 15⟩ ⟨⟨5, 3, 1⟩, 0⟩
      (by decide) (by decide) (by decide) (by decide)⟩

/-! ### The record store

One row of the store after `hr_dashboard.py`'s load block: date columns
parsed, numeric columns coerced (`NaN` = `none`), `status_funcionario`
cleaned, `idade` and `anos_servico` derived. -/

structure Employee where
  nome : String
  departamento : String
  cargo : String
  status_funcionario : String
  data_nascimento : Date
  data_admissao : Date
  data_demissao : Option Date
  ultimo_treinamento : Option Date
  certificacoes_seguranca : Option String
  idade : Int
  anos_servico : ℚ
  salario : Option ℚ
  horas_treinamento_ano : Option ℚ
  dias_ausencia_mes : Option ℚ
  acidentes_trabalho : Option ℚ
  uso_epi_score : Option ℚ
  avaliacao_performance : Option ℚ
  deriving DecidableEq

/-! ### Sort relations used by `sort_values`

`sort_values("birthday_this_year")` / `("anniversary_this_year")` sort
ascending by the occurrence timestamp; `sort_values("dias_sem_treinamento",
ascending=False)` sorts descending with `NaN` placed last
(`na_position="last"`). -/

/-- Ascending comparison on (employee, occurrence) pairs. -/
def occLe (p q : Employee × Date) : Prop := toOrdinal p.2 ≤ toOrdinal q.2

instance : DecidableRel occLe := fun p q =>
  inferInstanceAs (Decidable (toOrdinal p.2 ≤ toOrdinal q.2))

instance : IsTotal (Employee × Date) occLe := ⟨fun _ _ => Nat.le_total _ _⟩

instance : IsTrans (Employee × Date) occLe := ⟨fun _ _ _ => Nat.le_trans⟩

/-- Descending comparison on optional day counts, `NaN` sorted last. -/
def staleOrder (a b : Option Int) : Prop :=
  match a, b with
  | some x, some y => y ≤ x
  | none, some _ => False
  | _, none => True

instance : DecidableRel staleOrder := fun a b =>
  match a, b with
  | some x, some y => inferInstanceAs (Decidable (y ≤ x))
  | none, some _ => isFalse (fun h => h)
  | some _, none => isTrue trivial
  | none, none => isTrue trivial

instance : IsTotal (Option Int) staleOrder := ⟨by
  intro a b
  cases a <;> cases b <;> simp [staleOrder]
  exact Int.le_total _ _⟩

instance : IsTrans (Option Int) staleOrder := ⟨by
  intro a b c hab hbc
  cases a <;> cases b <;> cases c <;> simp_all [staleOrder]
  omega⟩

/-- Descending comparison on (employee, optional day count) pairs. -/
def certRel (p q : Employee × Option Int) : Prop := staleOrder p.2 q.2

instance : DecidableRel certRel := fun p q =>
  inferInstanceAs (Decidable (staleOrder p.2 q.2))

instance : IsTotal (Employee × Option Int) certRel :=
  ⟨fun p q => IsTotal.total (r := staleOrder) p.2 q.2⟩

instance : IsTrans (Employee × Option Int) certRel :=
  ⟨fun _ _ _ hab hbc => Trans.trans (r := staleOrder) hab hbc⟩

/-! ### The recurrence views (`get_upcoming_birthdays`,
`get_work_anniversaries`) and the staleness view
(`get_outdated_certifications`) -/

/-- Columns selected at the end of `get_upcoming_birthdays`. -/
structure BirthdayRow where
  nome : String
  departamento : String
  cargo : String
  data_nascimento : Date
  birthday_this_year : Date
  idade : Int
  deriving DecidableEq

/-- Columns selected at the end of `get_work_anniversaries`. -/
structure AnniversaryRow where
  nome : String
  departamento : String
  cargo : String
  data_admissao : Date
  anniversary_this_year : Date
  anos_servico : ℚ
  deriving DecidableEq

/-- Columns selected at the end of `get_outdated_certifications`. -/
structure CertRow where
  nome : String
  departamento : String
  cargo : String
  certificacoes_seguranca : Option String
  ultimo_treinamento : Option Date
  dias_sem_treinamento : Option Int
  horas_treinamento_ano : Option ℚ
  deriving DecidableEq

def birthdayRowOf (p : Employee × Date) : BirthdayRow :=
  { nome := p.1.nome, departamento := p.1.departamento, cargo := p.1.cargo,
    data_nascimento := p.1.data_nascimento, birthday_this_year := p.2,
    idade := p.1.idade }

def anniversaryRowOf (p : Employee × Date) : AnniversaryRow :=
  { nome := p.1.nome, departamento := p.1.departamento, cargo := p.1.cargo,
    data_admissao := p.1.data_admissao, anniversary_this_year := p.2,
    anos_servico := p.1.anos_servico }

def certRowOf (p : Employee × Option Int) : CertRow :=
  { nome := p.1.nome, departamento := p.1.departamento, cargo := p.1.cargo,
    certificacoes_seguranca := p.1.certificacoes_seguranca,
    ultimo_treinamento := p.1.ultimo_treinamento,
    dias_sem_treinamento := p.2,
    horas_treinamento_ano := p.1.horas_treinamento_ano }

/-- `get_upcoming_birthdays(df, days_ahead, dept_filter)`
(helper_funcs.py 119-163). -/
def get_upcoming_birthdays (df : List Employee) (now : Timestamp)
    (days_ahead : Nat) (dept_filter : String) : List BirthdayRow :=
  let active_df := df.filter (fun e => e.status_funcionario == "Ativo")
  let active_df :=
    if dept_filter != "all" then
      active_df.filter (fun e => e.departamento == dept_filter)
    else active_df
  let with_birthday :=
    active_df.map (fun e => (e, nextOccurrence e.data_nascimento now))
  let end_date := now.toSec + 86400 * days_ahead
  let upcoming := with_birthday.filter (fun p => decide (dateToSec p.2 ≤ end_date))
  (List.insertionSort occLe upcoming).map birthdayRowOf

/-- `get_work_anniversaries(df, days_ahead, dept_filter)`
(helper_funcs.py 166-214). -/
def get_work_anniversaries (df : List Employee) (now : Timestamp)
    (days_ahead : Nat) (dept_filter : String) : List AnniversaryRow :=
  let active_df := df.filter (fun e => e.status_funcionario == "Ativo")
  let active_df :=
    if dept_filter != "all" then
      active_df.filter (fun e => e.departamento == dept_filter)
    else active_df
  let with_anniversary :=
    active_df.map (fun e => (e, nextOccurrence e.data_admissao now))
  let end_date := now.toSec + 86400 * days_ahead
  let upcoming :=
    with_anniversary.filter (fun p => decide (dateToSec p.2 ≤ end_date))
  (List.insertionSort occLe upcoming).map anniversaryRowOf

/-- `get_outdated_certifications(df, dept_filter)` (helper_funcs.py
217-249).  The row filter tests `certificacoes_seguranca.notna()`; the
day count `(today - ultimo_treinamento).dt.days` is `NaN` (= `none`) when
`ultimo_treinamento` is `NaT`. -/
def get_outdated_certifications (df : List Employee) (now : Timestamp)
    (dept_filter : String) : List CertRow :=
  let active_df := df.filter (fun e => e.status_funcionario == "Ativo")
  let active_df :=
    if dept_filter != "all" then
      active_df.filter (fun e => e.departamento == dept_filter)
    else active_df
  let certified_df := active_df.filter (fun e => e.certificacoes_seguranca.isSome)
  let with_days := certified_df.map (fun e =>
    (e, e.ultimo_treinamento.map
          (fun d => (toOrdinal now.date : Int) - toOrdinal d)))
  (List.insertionSort certRel with_days).map certRowOf

/-! ### Feature engineering (`prepare_ml_features`, helper_funcs.py 34-70) -/

/-- Order-preserving distinct values, as `pandas.Series.unique` returns
them (first-seen order). -/
def uniqueVals {α : Type} [BEq α] : List α → List α
  | [] => []
  | a :: rest => a :: (uniqueVals rest).filter (fun b => b != a)

/-- `Series.mean()`: mean over the non-missing entries; `NaN` (= `none`)
when the column is entirely missing. -/
def colMean (col : List (Option ℚ)) : Option ℚ :=
  let xs := col.filterMap id
  if xs.length = 0 then none else some (xs.sum / xs.length)

/-- `Series.fillna(Series.mean())`: replaces each missing entry by the
column mean; a no-op when the mean itself is `NaN`. -/
def fillnaMean (col : List (Option ℚ)) : List (Option ℚ) :=
  match colMean col with
  | none => col
  | some m => col.map (fun v => some (v.getD m))

/-- `Series.max()`: maximum of the non-missing entries; `NaN` on an
all-missing column. -/
def colMax (col : List (Option ℚ)) : Option ℚ := (col.filterMap id).max?

def col_idade_normalizada (data : List Employee) : List (Option ℚ) :=
  data.map (fun e => some ((e.idade : ℚ) / 100))

/-- `ml_df["salario"] / ml_df["salario"].max()` (batch-relative); `NaN`
entries propagate. -/
def col_salario_normalizado (data : List Employee) : List (Option ℚ) :=
  let mx := colMax (data.map (·.salario))
  data.map (fun e => e.salario.bind (fun s => mx.map (fun m => s / m)))

def col_anos_servico_normalizado (data : List Employee) : List (Option ℚ) :=
  let mx := colMax (data.map (fun e => some e.anos_servico))
  data.map (fun e => mx.map (fun m => e.anos_servico / m))

/-- `{dept: i for i, dept in enumerate(ml_df["departamento"].unique())}`. -/
def dept_mapping (data : List Employee) : List String :=
  uniqueVals (data.map (·.departamento))

def col_departamento_encoded (data : List Employee) : List (Option ℚ) :=
  data.map (fun e => some (((dept_mapping data).indexOf e.departamento : ℚ)))

/-- `(ml_df["status_funcionario"] == "Desligado").astype(int)`. -/
def col_target (data : List Employee) : List Nat :=
  data.map (fun e => if e.status_funcionario = "Desligado" then 1 else 0)

/-- The 9 feature columns plus target produced by `prepare_ml_features`
(column-wise view of the returned dataframe). -/
structure MLFeatures where
  idade_normalizada : List (Option ℚ)
  salario_normalizado : List (Option ℚ)
  anos_servico_normalizado : List (Option ℚ)
  departamento_encoded : List (Option ℚ)
  horas_treinamento_ano : List (Option ℚ)
  dias_ausencia_mes : List (Option ℚ)
  acidentes_trabalho : List (Option ℚ)
  uso_epi_score : List (Option ℚ)
  avaliacao_performance : List (Option ℚ)
  target : List Nat
  deriving DecidableEq

/-- `prepare_ml_features(data)`: derive the normalized and encoded columns,
then mean-impute every declared feature column. -/
def prepare_ml_features (data : List Employee) : MLFeatures :=
  { idade_normalizada := fillnaMean (col_idade_normalizada data)
    salario_normalizado := fillnaMean (col_salario_normalizado data)
    anos_servico_normalizado := fillnaMean (col_anos_servico_normalizado data)
    departamento_encoded := fillnaMean (col_departamento_encoded data)
    horas_treinamento_ano := fillnaMean (data.map (·.horas_treinamento_ano))
    dias_ausencia_mes := fillnaMean (data.map (·.dias_ausencia_mes))
    acidentes_trabalho := fillnaMean (data.map (·.acidentes_trabalho))
    uso_epi_score := fillnaMean (data.map (·.uso_epi_score))
    avaliacao_performance := fillnaMean (data.map (·.avaliacao_performance))
    target := col_target data }

/-! ### Risk bucketing and the training / scoring control flow -/

/-- `pd.cut(risk_scores, bins=[0, 0.25, 0.5, 1.0],
labels=["Baixo", "Médio", "Alto"])` applied to one score.  `pd.cut` bins
are right-closed and left-open and `include_lowest` defaults to `False`,
so the bins are `(0, 0.25]`, `(0.25, 0.5]`, `(0.5, 1.0]`; a value outside
every bin — in particular exactly `0` — gets a missing label. -/
def risk_level (x : ℚ) : Option String :=
  if 0 < x ∧ x ≤ 1/4 then some "Baixo"
  else if 1/4 < x ∧ x ≤ 1/2 then some "Médio"
  else if 1/2 < x ∧ x ≤ 1 then some "Alto"
  else none

/-- sklearn `train_test_split(..., test_size=0.2)`: test partition size is
`ceil(0.2 * n)`. -/
def n_test_of (n : Nat) : Nat := (n + 4) / 5

def n_train_of (n : Nat) : Nat := n - n_test_of n

/-- Conditions under which `train_test_split(X, y, test_size=0.2, ...,
stratify=y)` (sklearn `StratifiedShuffleSplit`) raises `ValueError`:
empty input, some label class with fewer than two members, or a partition
smaller than the number of classes.  Note a single class with at least two
members passes every check — stratified splitting does *not* reject a
single-class `y`. -/
def stratified_split_raises (ys : List Nat) : Bool :=
  let classes := uniqueVals ys
  decide (ys.length = 0) ||
    classes.any (fun c => decide (ys.count c < 2)) ||
    decide (n_train_of ys.length < classes.length) ||
    decide (n_test_of ys.length < classes.length)

/-- `RandomForestClassifier.fit` / `predict_proba` raise `ValueError` when
the feature matrix contains `NaN` — i.e. when some feature column was
entirely missing, so mean-imputation left it missing. -/
def features_have_nan (t : MLFeatures) : Bool :=
  t.idade_normalizada.any (fun v => v.isNone) ||
    t.salario_normalizado.any (fun v => v.isNone) ||
    t.anos_servico_normalizado.any (fun v => v.isNone) ||
    t.departamento_encoded.any (fun v => v.isNone) ||
    t.horas_treinamento_ano.any (fun v => v.isNone) ||
    t.dias_ausencia_mes.any (fun v => v.isNone) ||
    t.acidentes_trabalho.any (fun v => v.isNone) ||
    t.uso_epi_score.any (fun v => v.isNone) ||
    t.avaliacao_performance.any (fun v => v.isNone)

/-- The fitted classifier, as far as control flow is concerned: sklearn's
`classes_` are the distinct labels seen in `y`, and `predict_proba`
returns one probability column per class.  The numeric probabilities of
the forest are not modelled; scores enter the development only through
`risk_level`. -/
structure RFModel where
  classes : List Nat
  deriving DecidableEq

/-- `train_turnover_model(data)` (helper_funcs.py 73-99): the whole body
runs inside `try`; a `ValueError` from the stratified split or from the
fit is caught and `(None, None, None, None)` is returned. -/
def train_turnover_model (data : List Employee) : Option RFModel :=
  let ml := prepare_ml_features data
  if stratified_split_raises ml.target || features_have_nan ml then none
  else some ⟨uniqueVals ml.target⟩

/-- Outcome of `predict_turnover_risk(data)` (helper_funcs.py 7-30).
`model is None` produces the graceful `(None, None)` return; otherwise
`model.predict_proba(X)[:, 1]` runs *outside* any `try`: `predict_proba`
raises on `NaN` features, and the `[:, 1]` indexing raises `IndexError`
whenever the model saw fewer than two classes (the probability matrix
then has a single column). -/
def predict_turnover_risk (data : List Employee) :
    Except String (Option (List Employee)) :=
  match train_turnover_model data with
  | none => .ok none
  | some model =>
    let active_df := data.filter (fun e => e.status_funcionario == "Ativo")
    let ml := prepare_ml_features active_df
    if features_have_nan ml then .error "ValueError"
    else if model.classes.length < 2 then .error "IndexError"
    else .ok (some active_df)

/-! ### Load-time derivations (`hr_dashboard.py` 26-57) -/

/-- Status cleaning (hr_dashboard.py 38-43): set `"Desligado"` wherever a
termination date is present, then fill *missing* statuses with `"Ativo"`.
A status string already present in the CSV is otherwise left untouched. -/
def clean_status (raw : Option String) (data_demissao : Option Date) : String :=
  let s := if data_demissao.isSome then some "Desligado" else raw
  s.getD "Ativo"

/-- `idade` (hr_dashboard.py 27):
`(datetime.now() - df["data_nascimento"]).dt.days // 365`; the
`timedelta.days` value equals the ordinal difference of the dates. -/
def idade_col (data_nascimento : Date) (now : Timestamp) : Int :=
  Int.fdiv ((toOrdinal now.date : Int) - toOrdinal data_nascimento) 365

/-- `anos_servico` (hr_dashboard.py 57):
`(today - df["data_admissao"]).dt.days / 365.25`. -/
def anos_servico_col (data_admissao : Date) (now : Timestamp) : ℚ :=
  ((toOrdinal now.date : ℚ) - toOrdinal data_admissao) / (365.25 : ℚ)

/-- Modelled from the spec: "age (years, floor)" in *calendar* years — the
number of completed calendar years from birth to the anchor date, the
comparator claim C9 measures `idade` against. -/
def calendar_age_spec (birth nowd : Date) : Int :=
  (nowd.year : Int) - birth.year -
    (if nowd.month < birth.month ∨ (nowd.month = birth.month ∧ nowd.day < birth.day)
     then 1 else 0)

/-! ### Claim C2: risk-level bucketing -/

/-- **C2 counterexample.** The claim says a score in `[0, 0.25]` — with 0
included — is bucketed Low and every score in `[0,1]` gets exactly one
bucket.  The code's `pd.cut` bins are left-open, so a risk score of
exactly `0` receives *no* bucket (missing label). -/
theorem C2_cex_zero_has_no_bucket : risk_level 0 = none := by
  norm_num [risk_level]

/-- **C2 (amended).** The three buckets exactly partition `(0, 1]` — Low
on `(0, 0.25]`, Medium on `(0.25, 0.5]`, High on `(0.5, 1]`, with no gap
or overlap at the interior boundaries — while a score of exactly `0`
falls outside every bucket. -/
theorem C2_risk_level_partition (x : ℚ) (h0 : 0 < x) (h1 : x ≤ 1) :
    (risk_level x = some "Baixo" ↔ x ≤ 1/4) ∧
    (risk_level x = some "Médio" ↔ 1/4 < x ∧ x ≤ 1/2) ∧
    (risk_level x = some "Alto" ↔ 1/2 < x) ∧
    (risk_level x).isSome = true := by
  unfold risk_level
  split_ifs with hA hB hC
  all_goals refine ⟨?_, ?_, ?_, ?_⟩
  all_goals simp_all
  all_goals linarith

/-- Witness for C2 at the concrete score `1/8`. -/
theorem C2_witness :
    ((0 : ℚ) < 1/8 ∧ (1/8 : ℚ) ≤ 1) ∧
    ((risk_level (1/8) = some "Baixo" ↔ (1/8 : ℚ) ≤ 1/4) ∧
      (risk_level (1/8) = some "Médio" ↔ 1/4 < (1/8 : ℚ) ∧ (1/8 : ℚ) ≤ 1/2) ∧
      (risk_level (1/8) = some "Alto" ↔ 1/2 < (1/8 : ℚ)) ∧
      (risk_level (1/8)).isSome = true) :=
  ⟨⟨by norm_num, by norm_num⟩,
    C2_risk_level_partition (1/8) (by norm_num) (by norm_num)⟩

/-! ### Claim C6: status derived from termination date -/

/-- **C6 counterexample.** `status = Terminated ↔ termination_date present`
fails: the load only *sets* "Desligado" where a termination date exists and
fills missing statuses with "Ativo"; a CSV row carrying status "Desligado"
with no termination date keeps it. -/
theorem C6_cex_status_not_iff_termination :
    ¬ ∀ (raw : Option String) (dem : Option Date),
        (clean_status raw dem = "Desligado" ↔ dem.isSome = true) := by
  intro h
  have h' := (h (some "Desligado") none).mp rfl
  simp at h'

/-- **C6 (amended).** After the load, a present termination date forces
status "Desligado", and where the termination date is absent the loaded
status is kept as-is with missing statuses defaulting to "Ativo"; the
converse implication (status "Desligado" only with a termination date) does
not hold for rows whose CSV status was already "Desligado". -/
theorem C6_clean_status_behaviour (raw : Option String) (dem : Option Date) :
    (dem.isSome = true → clean_status raw dem = "Desligado") ∧
    (dem = none → clean_status raw dem = raw.getD "Ativo") := by
  constructor
  · intro h
    cases dem with
    | none => simp at h
    | some d => rfl
  · intro h
    subst h
    rfl

/-- Witness for C6: a termination date yields "Desligado"; absence keeps
the loaded status. -/
theorem C6_witness :
    clean_status none (some ⟨5, 1, 1⟩) = "Desligado" ∧
    clean_status (some "Licença") none = "Licença" :=
  ⟨(C6_clean_status_behaviour none (some ⟨5, 1, 1⟩)).1 rfl,
    ((C6_clean_status_behaviour (some "Licença") none).2 rfl :
      clean_status (some "Licença") none = "Licença")⟩

/-! ### Claim C9: age and service-time conventions -/

theorem daysBeforeYear_add_ge (y k : Nat) :
    daysBeforeYear y + 365 * k ≤ daysBeforeYear (y + k) := by
  induction k with
  | zero => simp
  | succ n ih =>
    have h : 365 ≤ daysInYear (y + n) := by
      rw [daysInYear_eq]; split <;> omega
    have e : y + (n + 1) = (y + n) + 1 := by omega
    rw [e, daysBeforeYear_succ]
    omega

/-- **C9 counterexample.** `idade` is *not* the age in whole calendar
years: for birth 0004-03-15 and anchor 0028-03-14 (one day before the 24th
birthday) the code computes `8765 // 365 = 24`, while the completed
calendar years are 23. -/
theorem C9_cex_age_is_not_calendar_years :
    idade_col ⟨4, 3, 15⟩ ⟨⟨28, 3, 14⟩, 0⟩ = 24 ∧
    calendar_age_spec ⟨4, 3, 15⟩ ⟨28, 3, 14⟩ = 23 := by decide

/-- **C9 (amended).** `idade` is the floor of days-since-birth divided by
365 — a 365-day-year convention, not exact calendar age — while
`anos_servico` is days-since-hire divided by 365.25: two distinct
conventions (365-day vs 365.25-day year).  The 365-day approximation
never undercounts the completed calendar years. -/
theorem C9_age_service_conventions (birth adm : Date) (now : Timestamp)
    (hb : birth.Valid) (hn : now.date.Valid)
    (hord : toOrdinal birth ≤ toOrdinal now.date) :
    idade_col birth now =
      ((toOrdinal now.date : Int) - toOrdinal birth).fdiv 365 ∧
    anos_servico_col adm now =
      ((toOrdinal now.date : ℚ) - toOrdinal adm) * 4 / 1461 ∧
    calendar_age_spec birth now.date ≤ idade_col birth now := by
  refine ⟨rfl, ?_, ?_⟩
  · unfold anos_servico_col
    rw [show (365.25 : ℚ) = 1461 / 4 by norm_num]
    ring
  · obtain ⟨hbm₁, hbm₂, hbd₁, hbd₂⟩ := hb
    obtain ⟨hnm₁, hnm₂, hnd₁, hnd₂⟩ := hn
    have hyy : birth.year ≤ now.date.year := by
      by_contra hyy
      have h1 : toOrdinal now.date ≤ daysBeforeYear (now.date.year + 1) :=
        toOrdinal_le_year_end ⟨hnm₁, hnm₂, hnd₁, hnd₂⟩
      have h2 : daysBeforeYear (now.date.year + 1) ≤ daysBeforeYear birth.year :=
        daysBeforeYear_mono (by omega)
      have h3 : daysBeforeYear birth.year < toOrdinal birth :=
        year_start_lt_toOrdinal hbd₁
      omega
    have hfd : Int.fdiv ((toOrdinal now.date : Int) - toOrdinal birth) 365 =
        ((toOrdinal now.date : Int) - toOrdinal birth) / 365 :=
      Int.fdiv_eq_ediv _ (by omega)
    unfold calendar_age_spec idade_col
    rw [hfd, Int.le_ediv_iff_mul_le (by omega)]
    split_ifs with hc
    · -- anchor's month/day is before birth's: Δyears - 1 completed years
      have hlt : birth.year < now.date.year := by
        rcases Nat.lt_or_ge birth.year now.date.year with h | h
        · exact h
        · exfalso
          have heq : birth.year = now.date.year := by omega
          have hmdlt : daysBeforeMonth now.date.year now.date.month +
              now.date.day <
              daysBeforeMonth now.date.year birth.month + birth.day :=
            monthday_lt now.date.year hnm₁ hnd₂ hbd₁ hc
          have e1 : toOrdinal now.date =
              daysBeforeYear now.date.year +
                daysBeforeMonth now.date.year now.date.month + now.date.day := rfl
          have e2 : toOrdinal birth =
              daysBeforeYear birth.year +
                daysBeforeMonth birth.year birth.month + birth.day := rfl
          rw [heq] at e2
          omega
      have ha1 : daysBeforeYear now.date.year < toOrdinal now.date :=
        year_start_lt_toOrdinal hnd₁
      have ha2 : toOrdinal birth ≤ daysBeforeYear (birth.year + 1) :=
        toOrdinal_le_year_end ⟨hbm₁, hbm₂, hbd₁, hbd₂⟩
      have ha3 := daysBeforeYear_add_ge (birth.year + 1)
        (now.date.year - birth.year - 1)
      rw [show birth.year + 1 + (now.date.year - birth.year - 1) =
        now.date.year from by omega] at ha3
      omega
    · -- birth's month/day already reached in the anchor year
      have hlex : birth.month < now.date.month ∨
          (birth.month = now.date.month ∧ birth.day ≤ now.date.day) := by
        omega
      have hoff : daysBeforeMonth now.date.year birth.month + birth.day ≤
          daysBeforeMonth now.date.year now.date.month + now.date.day :=
        monthday_le_of_lex now.date.year birth.year hbm₁ hbd₂ hnd₁ hlex
      have hstep := toOrdinal_year_add_ge birth.year birth.month birth.day
        (now.date.year - birth.year) hbm₁ hbm₂
      rw [show birth.year + (now.date.year - birth.year) = now.date.year
        from by omega] at hstep
      have e1 : toOrdinal ⟨now.date.year, birth.month, birth.day⟩ =
          daysBeforeYear now.date.year +
            daysBeforeMonth now.date.year birth.month + birth.day := rfl
      have e2 : toOrdinal now.date =
          daysBeforeYear now.date.year +
            daysBeforeMonth now.date.year now.date.month + now.date.day := rfl
      have e3 : toOrdinal birth =
          daysBeforeYear birth.year +
            daysBeforeMonth birth.year birth.month + birth.day := rfl
      have e4 : toOrdinal ⟨birth.year, birth.month, birth.day⟩ =
          daysBeforeYear birth.year +
            daysBeforeMonth birth.year birth.month + birth.day := rfl
      omega

/-- Witness for C9 at birth 0001-03-15, hire 0002-06-01, anchor
0005-06-01 00:00:00. -/
theorem C9_witness :
    (Date.Valid ⟨1, 3, 15⟩ ∧ Date.Valid ⟨5, 6, 1⟩ ∧
      toOrdinal ⟨1, 3, 15⟩ ≤ toOrdinal ⟨5, 6, 1⟩) ∧
    (idade_col ⟨1, 3, 15⟩ ⟨⟨5, 6, 1⟩, 0⟩ =
        ((toOrdinal (⟨5, 6, 1⟩ : Date) : Int) -
          toOrdinal (⟨1, 3, 15⟩ : Date)).fdiv 365 ∧
      anos_servico_col ⟨2, 6, 1⟩ ⟨⟨5, 6, 1⟩, 0⟩ =
        ((toOrdinal (⟨5, 6, 1⟩ : Date) : ℚ) -
          toOrdinal (⟨2, 6, 1⟩ : Date)) * 4 / 1461 ∧
      calendar_age_spec ⟨1, 3, 15⟩ ⟨5, 6, 1⟩ ≤
        idade_col ⟨1, 3, 15⟩ ⟨⟨5, 6, 1⟩, 0⟩) :=
  ⟨⟨by decide, by decide, by decide⟩,
    C9_age_service_conventions ⟨1, 3, 15⟩ ⟨2, 6, 1⟩ ⟨⟨5, 6, 1⟩, 0⟩
      (by decide) (by decide) (by decide)⟩

/-! ### Claim C3: what the staleness view excludes -/

/-- A fully populated Active employee used as concrete test input. -/
def empActiveFull : Employee :=
  { nome := "Ana", departamento := "Obras", cargo := "Engenheira",
    status_funcionario := "Ativo",
    data_nascimento := ⟨1, 3, 15⟩, data_admissao := ⟨2, 6, 1⟩,
    data_demissao := none, ultimo_treinamento := some ⟨3, 1, 1⟩,
    certificacoes_seguranca := some "NR-35",
    idade := 30, anos_servico := 5,
    salario := some 1000, horas_treinamento_ano := some 20,
    dias_ausencia_mes := some 1, acidentes_trabalho := some 0,
    uso_epi_score := some 9, avaliacao_performance := some 8 }

/-- An Active employee with safety certifications but no recorded last
training date. -/
def empCertNoTraining : Employee :=
  { empActiveFull with ultimo_treinamento := none }

/-- **C3 counterexample.** A record with certifications present but
`last_training_date` absent is *not* excluded: it appears in the output
(with a missing day count), because the code filters on
`certificacoes_seguranca.notna()`, not on the training date. -/
theorem C3_cex_missing_training_date_included :
    get_outdated_certifications [empCertNoTraining] ⟨⟨5, 1, 1⟩, 0⟩ "all" =
      [{ nome := "Ana", departamento := "Obras", cargo := "Engenheira",
         certificacoes_seguranca := some "NR-35",
         ultimo_treinamento := none, dias_sem_treinamento := none,
         horas_treinamento_ano := some 20 }] := by
  decide

/-- **C3 (amended).** Exclusion from the staleness view is by missing
`certificacoes_seguranca`, not by missing training date: every output row
comes from a certified record; a certified record without
`ultimo_treinamento` stays in the output with a missing (`NaN`) day count —
never a numeric one such as 0 — and a numeric day count arises only from a
present training date. -/
theorem C3_staleness_exclusion_by_certification (df : List Employee)
    (now : Timestamp) (dept_filter : String) (r : CertRow)
    (hr : r ∈ get_outdated_certifications df now dept_filter) :
    r.certificacoes_seguranca.isSome = true ∧
    (r.ultimo_treinamento = none → r.dias_sem_treinamento = none) ∧
    (∀ d, r.ultimo_treinamento = some d →
      r.dias_sem_treinamento = some ((toOrdinal now.date : Int) - toOrdinal d)) := by
  simp only [get_outdated_certifications, List.mem_map] at hr
  obtain ⟨p, hp, rfl⟩ := hr
  have hp' := (List.perm_insertionSort certRel _).mem_iff.mp hp
  simp only [List.mem_map] at hp'
  obtain ⟨e, he, rfl⟩ := hp'
  have hcert : e.certificacoes_seguranca.isSome = true :=
    (List.mem_filter.mp he).2
  refine ⟨hcert, ?_, ?_⟩
  · intro h
    simp only [certRowOf] at h
    simp [certRowOf, h]
  · intro d h
    simp only [certRowOf] at h
    simp [certRowOf, h]

/-- Witness for C3: the concrete certified record without training date is
a member of the view's output and carries a missing day count. -/
theorem C3_witness :
    (certRowOf (empCertNoTraining, none) ∈
      get_outdated_certifications [empCertNoTraining] ⟨⟨5, 1, 1⟩, 0⟩ "all") ∧
    (certRowOf (empCertNoTraining, none)).certificacoes_seguranca.isSome = true ∧
    ((certRowOf (empCertNoTraining, none)).ultimo_treinamento = none →
      (certRowOf (empCertNoTraining, none)).dias_sem_treinamento = none) :=
  ⟨by decide,
    (C3_staleness_exclusion_by_certification [empCertNoTraining] ⟨⟨5, 1, 1⟩, 0⟩
      "all" _ (by decide)).1,
    (C3_staleness_exclusion_by_certification [empCertNoTraining] ⟨⟨5, 1, 1⟩, 0⟩
      "all" _ (by decide)).2.1⟩

/-! ### Claim C5: training on a single-label batch -/

/-- **C5 (code bug evidence).** On a batch whose records all carry the
same label (all Active), training does *not* return the failure value:
sklearn's stratified split accepts a single class with at least two
members, a single-class model is fitted and returned, and the scorer then
raises `IndexError` at `predict_proba(X)[:, 1]` — outside any handler —
instead of treating the situation gracefully. -/
theorem C5_single_label_batch_trains_then_scorer_raises :
    train_turnover_model
        [empActiveFull, empActiveFull, empActiveFull, empActiveFull] ≠ none ∧
    predict_turnover_risk
        [empActiveFull, empActiveFull, empActiveFull, empActiveFull] =
      .error "IndexError" := by
  constructor
  · decide
  · rfl

/-! ### Claim C8: mean-imputation and missing values -/

/-- An Active employee whose yearly training hours are missing. -/
def empMissingHours : Employee :=
  { empActiveFull with horas_treinamento_ano := none }

/-- **C8 counterexample.** For the non-empty batch consisting of one
record with missing `horas_treinamento_ano`, the column mean is `NaN` and
`fillna` leaves the column missing: the feature-engineering output still
contains a missing value. -/
theorem C8_cex_all_missing_column_stays_missing :
    (prepare_ml_features [empMissingHours]).horas_treinamento_ano = [none] := by
  decide

theorem colMean_isSome {col : List (Option ℚ)} (h : ∃ v ∈ col, v.isSome = true) :
    ∃ m, colMean col = some m := by
  obtain ⟨v, hv, hs⟩ := h
  obtain ⟨x, rfl⟩ := Option.isSome_iff_exists.mp hs
  have hx : x ∈ col.filterMap id := List.mem_filterMap.mpr ⟨some x, hv, rfl⟩
  unfold colMean
  rcases hcol : col.filterMap id with _ | ⟨a, as⟩
  · rw [hcol] at hx
    simp at hx
  · simp

/-- A column with at least one present value has no missing entries after
`fillna(mean)`. -/
theorem fillnaMean_no_missing {col : List (Option ℚ)}
    (h : ∃ v ∈ col, v.isSome = true) :
    ∀ w ∈ fillnaMean col, w.isSome = true := by
  obtain ⟨m, hm⟩ := colMean_isSome h
  intro w hw
  unfold fillnaMean at hw
  rw [hm] at hw
  simp only [List.mem_map] at hw
  obtain ⟨v, _, rfl⟩ := hw
  rfl

/-- `fillna(mean)` replaces each missing entry by the column's mean. -/
theorem fillnaMean_replaces_by_mean {col : List (Option ℚ)}
    (h : ∃ v ∈ col, v.isSome = true) {i : Nat} (hi : col[i]? = some none) :
    (fillnaMean col)[i]? = some (colMean col) := by
  obtain ⟨m, hm⟩ := colMean_isSome h
  unfold fillnaMean
  rw [hm, List.getElem?_map, hi]
  rfl

theorem colMax_isSome {col : List (Option ℚ)} (h : ∃ v ∈ col, v.isSome = true) :
    ∃ m, colMax col = some m := by
  obtain ⟨v, hv, hs⟩ := h
  obtain ⟨x, rfl⟩ := Option.isSome_iff_exists.mp hs
  have hx : x ∈ col.filterMap id := List.mem_filterMap.mpr ⟨some x, hv, rfl⟩
  unfold colMax
  rcases hcol : col.filterMap id with _ | ⟨a, as⟩
  · rw [hcol] at hx
    simp at hx
  · exact ⟨as.foldl max a, List.max?_cons'⟩

theorem exists_some_map_of_mem {data : List Employee} {f : Employee → Option ℚ}
    (h : ∃ e ∈ data, (f e).isSome = true) :
    ∃ v ∈ data.map f, v.isSome = true := by
  obtain ⟨e, he, hs⟩ := h
  exact ⟨f e, List.mem_map_of_mem f he, hs⟩

/-- **C8 (amended).** For a non-empty batch in which every declared
feature column carries at least one non-missing value — and whose
batch-maximum salary and years-of-service are nonzero, so the
normalizing divisions are well defined (in float semantics a zero max
would produce `NaN`/`inf`, which the exact `ℚ` model cannot represent) —
the feature-engineering output has no missing value in any of the 9
declared feature columns, and each missing entry is replaced by the
column's batch mean.  (The original claim fails when a column is entirely
missing: its mean is `NaN` and `fillna` leaves it missing.) -/
theorem C8_no_missing_after_imputation (data : List Employee)
    (hne : data ≠ [])
    (_hms : ¬ colMax (data.map (·.salario)) = some 0)
    (_hma : ¬ colMax (data.map (fun e => some e.anos_servico)) = some 0)
    (hsal : ∃ e ∈ data, e.salario.isSome = true)
    (hhor : ∃ e ∈ data, e.horas_treinamento_ano.isSome = true)
    (hdia : ∃ e ∈ data, e.dias_ausencia_mes.isSome = true)
    (haci : ∃ e ∈ data, e.acidentes_trabalho.isSome = true)
    (hepi : ∃ e ∈ data, e.uso_epi_score.isSome = true)
    (hava : ∃ e ∈ data, e.avaliacao_performance.isSome = true) :
    ((∀ v ∈ (prepare_ml_features data).idade_normalizada, v.isSome = true) ∧
     (∀ v ∈ (prepare_ml_features data).salario_normalizado, v.isSome = true) ∧
     (∀ v ∈ (prepare_ml_features data).anos_servico_normalizado, v.isSome = true) ∧
     (∀ v ∈ (prepare_ml_features data).departamento_encoded, v.isSome = true) ∧
     (∀ v ∈ (prepare_ml_features data).horas_treinamento_ano, v.isSome = true) ∧
     (∀ v ∈ (prepare_ml_features data).dias_ausencia_mes, v.isSome = true) ∧
     (∀ v ∈ (prepare_ml_features data).acidentes_trabalho, v.isSome = true) ∧
     (∀ v ∈ (prepare_ml_features data).uso_epi_score, v.isSome = true) ∧
     (∀ v ∈ (prepare_ml_features data).avaliacao_performance, v.isSome = true)) ∧
    ((∀ i : Nat, (data.map (·.horas_treinamento_ano))[i]? = some none →
        (prepare_ml_features data).horas_treinamento_ano[i]? =
          some (colMean (data.map (·.horas_treinamento_ano)))) ∧
     (∀ i : Nat, (data.map (·.dias_ausencia_mes))[i]? = some none →
        (prepare_ml_features data).dias_ausencia_mes[i]? =
          some (colMean (data.map (·.dias_ausencia_mes)))) ∧
     (∀ i : Nat, (data.map (·.acidentes_trabalho))[i]? = some none →
        (prepare_ml_features data).acidentes_trabalho[i]? =
          some (colMean (data.map (·.acidentes_trabalho)))) ∧
     (∀ i : Nat, (data.map (·.uso_epi_score))[i]? = some none →
        (prepare_ml_features data).uso_epi_score[i]? =
          some (colMean (data.map (·.uso_epi_score)))) ∧
     (∀ i : Nat, (data.map (·.avaliacao_performance))[i]? = some none →
        (prepare_ml_features data).avaliacao_performance[i]? =
          some (colMean (data.map (·.avaliacao_performance)))) ∧
     (∀ i : Nat, (col_salario_normalizado data)[i]? = some none →
        (prepare_ml_features data).salario_normalizado[i]? =
          some (colMean (col_salario_normalizado data)))) := by
  obtain ⟨e₀, he₀⟩ := List.exists_mem_of_ne_nil data hne
  have hidade : ∃ v ∈ col_idade_normalizada data, v.isSome = true :=
    ⟨_, List.mem_map_of_mem _ he₀, rfl⟩
  have hdept : ∃ v ∈ col_departamento_encoded data, v.isSome = true :=
    ⟨_, List.mem_map_of_mem _ he₀, rfl⟩
  have hsaln : ∃ v ∈ col_salario_normalizado data, v.isSome = true := by
    obtain ⟨mx, hmx⟩ := colMax_isSome (exists_some_map_of_mem hsal)
    obtain ⟨e, he, hs⟩ := hsal
    obtain ⟨s, hs'⟩ := Option.isSome_iff_exists.mp hs
    refine ⟨_, List.mem_map_of_mem
      (fun e => e.salario.bind fun s =>
        (colMax (data.map (·.salario))).map fun m => s / m) he, ?_⟩
    simp [hs', hmx]
  have hanosn : ∃ v ∈ col_anos_servico_normalizado data, v.isSome = true := by
    have hx : ∃ v ∈ data.map (fun e => some e.anos_servico), v.isSome = true :=
      ⟨some e₀.anos_servico,
        List.mem_map_of_mem (fun e => some e.anos_servico) he₀, rfl⟩
    obtain ⟨mx, hmx⟩ := colMax_isSome hx
    refine ⟨_, List.mem_map_of_mem
      (fun e => (colMax (data.map (fun e => some e.anos_servico))).map
        fun m => e.anos_servico / m) he₀, ?_⟩
    simp [hmx]
  refine ⟨⟨fillnaMean_no_missing hidade, fillnaMean_no_missing hsaln,
      fillnaMean_no_missing hanosn, fillnaMean_no_missing hdept,
      fillnaMean_no_missing (exists_some_map_of_mem hhor),
      fillnaMean_no_missing (exists_some_map_of_mem hdia),
      fillnaMean_no_missing (exists_some_map_of_mem haci),
      fillnaMean_no_missing (exists_some_map_of_mem hepi),
      fillnaMean_no_missing (exists_some_map_of_mem hava)⟩,
    fun _ hi => fillnaMean_replaces_by_mean (exists_some_map_of_mem hhor) hi,
    fun _ hi => fillnaMean_replaces_by_mean (exists_some_map_of_mem hdia) hi,
    fun _ hi => fillnaMean_replaces_by_mean (exists_some_map_of_mem haci) hi,
    fun _ hi => fillnaMean_replaces_by_mean (exists_some_map_of_mem hepi) hi,
    fun _ hi => fillnaMean_replaces_by_mean (exists_some_map_of_mem hava) hi,
    fun _ hi => fillnaMean_replaces_by_mean hsaln hi⟩

/-- Witness for C8 at the two-record batch where only
`horas_treinamento_ano` of the second record is missing. -/
theorem C8_witness :
    (([empActiveFull, empMissingHours] : List Employee) ≠ [] ∧
      ∃ e ∈ ([empActiveFull, empMissingHours] : List Employee),
        e.salario.isSome = true) ∧
    (∀ v ∈ (prepare_ml_features
        [empActiveFull, empMissingHours]).horas_treinamento_ano,
      v.isSome = true) :=
  ⟨⟨List.cons_ne_nil _ _, ⟨empActiveFull, List.mem_cons_self _ _, rfl⟩⟩,
    (C8_no_missing_after_imputation [empActiveFull, empMissingHours]
      (List.cons_ne_nil _ _) (by decide) (by decide)
      ⟨empActiveFull, List.mem_cons_self _ _, rfl⟩
      ⟨empActiveFull, List.mem_cons_self _ _, rfl⟩
      ⟨empActiveFull, List.mem_cons_self _ _, rfl⟩
      ⟨empActiveFull, List.mem_cons_self _ _, rfl⟩
      ⟨empActiveFull, List.mem_cons_self _ _, rfl⟩
      ⟨empActiveFull, List.mem_cons_self _ _, rfl⟩).1.2.2.2.2.1⟩

/-! ### Claim C7: filter/sort contract of the recurrence views -/

/-- The claim's membership predicate for a recurrence view: Active, in the
selected department (or no department filter), and the computed occurrence
within `[now, now + days_ahead]`, both ends included. -/
def in_window (now : Timestamp) (days_ahead : Nat) (dept_filter : String)
    (refOf : Employee → Date) (e : Employee) : Bool :=
  e.status_funcionario == "Ativo" &&
  (dept_filter == "all" || e.departamento == dept_filter) &&
  decide (now.toSec ≤ dateToSec (nextOccurrence (refOf e) now)) &&
  decide (dateToSec (nextOccurrence (refOf e) now) ≤
    now.toSec + 86400 * days_ahead)

/-- Ascending occurrence order on birthday rows. -/
def birthdayRowLe (r₁ r₂ : BirthdayRow) : Prop :=
  toOrdinal r₁.birthday_this_year ≤ toOrdinal r₂.birthday_this_year

instance : DecidableRel birthdayRowLe := fun r₁ r₂ =>
  inferInstanceAs (Decidable
    (toOrdinal r₁.birthday_this_year ≤ toOrdinal r₂.birthday_this_year))

/-- Ascending occurrence order on anniversary rows. -/
def anniversaryRowLe (r₁ r₂ : AnniversaryRow) : Prop :=
  toOrdinal r₁.anniversary_this_year ≤ toOrdinal r₂.anniversary_this_year

instance : DecidableRel anniversaryRowLe := fun r₁ r₂ =>
  inferInstanceAs (Decidable
    (toOrdinal r₁.anniversary_this_year ≤ toOrdinal r₂.anniversary_this_year))

/-- The pre-sort pipeline of both recurrence views — Active filter,
optional department filter, occurrence column, upper-bound window filter —
equals the single filter of the claim: under valid dates the computed
occurrence is never before `now`, so the missing lower-bound check is
redundant. -/
theorem pre_sort_eq (df : List Employee) (now : Timestamp) (days_ahead : Nat)
    (dept_filter : String) (refOf : Employee → Date)
    (hnow : now.Valid)
    (hval : ∀ e ∈ df,
      Date.Valid ⟨now.date.year + 1, (refOf e).month, (refOf e).day⟩) :
    ((if dept_filter != "all" then
        (df.filter (fun e => e.status_funcionario == "Ativo")).filter
          (fun e => e.departamento == dept_filter)
      else df.filter (fun e => e.status_funcionario == "Ativo")).map
        (fun e => (e, nextOccurrence (refOf e) now))).filter
      (fun p => decide (dateToSec p.2 ≤ now.toSec + 86400 * days_ahead)) =
    (df.filter (in_window now days_ahead dept_filter refOf)).map
      (fun e => (e, nextOccurrence (refOf e) now)) := by
  rw [List.filter_map]
  split_ifs with hd
  · rw [List.filter_filter, List.filter_filter]
    refine congrArg _ (List.filter_congr ?_)
    intro e he
    have hlb : now.toSec ≤ dateToSec (nextOccurrence (refOf e) now) :=
      nextOccurrence_ge (refOf e) now hnow (hval e he)
    have hd' : (dept_filter == "all") = false := by
      simp only [bne] at hd
      simp_all
    simp [in_window, hlb, hd', Function.comp]
    cases e.status_funcionario == "Ativo" <;>
      cases e.departamento == dept_filter <;>
      cases decide (dateToSec (nextOccurrence (refOf e) now) ≤
        now.toSec + 86400 * days_ahead) <;> rfl
  · rw [List.filter_filter]
    refine congrArg _ (List.filter_congr ?_)
    intro e he
    have hlb : now.toSec ≤ dateToSec (nextOccurrence (refOf e) now) :=
      nextOccurrence_ge (refOf e) now hnow (hval e he)
    have hd' : (dept_filter == "all") = true := by
      simp only [bne] at hd
      simp_all
    simp [in_window, hlb, hd', Function.comp]
    cases e.status_funcionario == "Ativo" <;>
      cases decide (dateToSec (nextOccurrence (refOf e) now) ≤
        now.toSec + 86400 * days_ahead) <;> rfl

/-- **C7.** Each recurrence view returns exactly the Active employees (of
the selected department, when filtered) whose computed occurrence falls
within `[now, now + days_ahead]`, inclusive at both ends — the code only
checks the upper bound, but the occurrence is never before `now` — and the
output is sorted ascending by occurrence date.  (Dates whose next-year
candidate is not a real date, i.e. the Feb 29 edge case, are outside the
contract.) -/
theorem C7_recurrence_views_filter_and_sort (df : List Employee)
    (now : Timestamp) (days_ahead : Nat) (dept_filter : String)
    (hnow : now.Valid)
    (hvb : ∀ e ∈ df, Date.Valid
      ⟨now.date.year + 1, e.data_nascimento.month, e.data_nascimento.day⟩)
    (hva : ∀ e ∈ df, Date.Valid
      ⟨now.date.year + 1, e.data_admissao.month, e.data_admissao.day⟩) :
    (get_upcoming_birthdays df now days_ahead dept_filter).Perm
      ((df.filter
          (in_window now days_ahead dept_filter (fun e => e.data_nascimento))).map
        (fun e => birthdayRowOf (e, nextOccurrence e.data_nascimento now))) ∧
    List.Sorted birthdayRowLe
      (get_upcoming_birthdays df now days_ahead dept_filter) ∧
    (get_work_anniversaries df now days_ahead dept_filter).Perm
      ((df.filter
          (in_window now days_ahead dept_filter (fun e => e.data_admissao))).map
        (fun e => anniversaryRowOf (e, nextOccurrence e.data_admissao now))) ∧
    List.Sorted anniversaryRowLe
      (get_work_anniversaries df now days_ahead dept_filter) := by
  have hpb := pre_sort_eq df now days_ahead dept_filter
    (fun e => e.data_nascimento) hnow hvb
  have hpa := pre_sort_eq df now days_ahead dept_filter
    (fun e => e.data_admissao) hnow hva
  refine ⟨?_, ?_, ?_, ?_⟩
  · simp only [get_upcoming_birthdays]
    rw [hpb]
    exact ((List.perm_insertionSort occLe _).map birthdayRowOf).trans
      (List.Perm.of_eq (by rw [List.map_map]; rfl))
  · simp only [get_upcoming_birthdays]
    exact List.Pairwise.map _ (fun a b hab => hab)
      (List.sorted_insertionSort occLe _)
  · simp only [get_work_anniversaries]
    rw [hpa]
    exact ((List.perm_insertionSort occLe _).map anniversaryRowOf).trans
      (List.Perm.of_eq (by rw [List.map_map]; rfl))
  · simp only [get_work_anniversaries]
    exact List.Pairwise.map _ (fun a b hab => hab)
      (List.sorted_insertionSort occLe _)

/-- Witness for C7 at a one-record store, anchor 0005-03-01, 30-day
window, no department filter. -/
theorem C7_witness :
    (Timestamp.Valid ⟨⟨5, 3, 1⟩, 0⟩ ∧
      (∀ e ∈ ([empActiveFull] : List Employee), Date.Valid
        ⟨5 + 1, e.data_nascimento.month, e.data_nascimento.day⟩)) ∧
    ((get_upcoming_birthdays [empActiveFull] ⟨⟨5, 3, 1⟩, 0⟩ 30 "all").Perm
      (([empActiveFull].filter
          (in_window ⟨⟨5, 3, 1⟩, 0⟩ 30 "all" (fun e => e.data_nascimento))).map
        (fun e => birthdayRowOf
          (e, nextOccurrence e.data_nascimento ⟨⟨5, 3, 1⟩, 0⟩))) ∧
     List.Sorted birthdayRowLe
       (get_upcoming_birthdays [empActiveFull] ⟨⟨5, 3, 1⟩, 0⟩ 30 "all") ∧
     (get_work_anniversaries [empActiveFull] ⟨⟨5, 3, 1⟩, 0⟩ 30 "all").Perm
      (([empActiveFull].filter
          (in_window ⟨⟨5, 3, 1⟩, 0⟩ 30 "all" (fun e => e.data_admissao))).map
        (fun e => anniversaryRowOf
          (e, nextOccurrence e.data_admissao ⟨⟨5, 3, 1⟩, 0⟩))) ∧
     List.Sorted anniversaryRowLe
       (get_work_anniversaries [empActiveFull] ⟨⟨5, 3, 1⟩, 0⟩ 30 "all")) :=
  ⟨⟨by decide, by decide⟩,
    C7_recurrence_views_filter_and_sort [empActiveFull] ⟨⟨5, 3, 1⟩, 0⟩ 30 "all"
      (by decide) (by decide) (by decide)⟩

/-! ### Claim C10: the engine never mutates the store

Every engine entry point starts from `df[...].copy()` / `data.copy()` and
assigns derived columns only to that copy (`active_df`, `ml_df`,
`certified_df`); no statement writes back to the store.  We make the store
threading explicit: each operation also returns the store as the caller
sees it after the call. -/

def get_upcoming_birthdays_op (df : List Employee) (now : Timestamp)
    (days_ahead : Nat) (dept_filter : String) :
    List BirthdayRow × List Employee :=
  (get_upcoming_birthdays df now days_ahead dept_filter, df)

def get_work_anniversaries_op (df : List Employee) (now : Timestamp)
    (days_ahead : Nat) (dept_filter : String) :
    List AnniversaryRow × List Employee :=
  (get_work_anniversaries df now days_ahead dept_filter, df)

def get_outdated_certifications_op (df : List Employee) (now : Timestamp)
    (dept_filter : String) : List CertRow × List Employee :=
  (get_outdated_certifications df now dept_filter, df)

def prepare_ml_features_op (data : List Employee) :
    MLFeatures × List Employee :=
  (prepare_ml_features data, data)

def train_turnover_model_op (data : List Employee) :
    Option RFModel × List Employee :=
  (train_turnover_model data, data)

def predict_turnover_risk_op (data : List Employee) :
    Except String (Option (List Employee)) × List Employee :=
  (predict_turnover_risk data, data)

/-- **C10.** After any engine operation — recurrence views, staleness
ranking, feature engineering, training, scoring — the record store equals
its value before the call; derived view columns exist only on the copies.
Moreover the rows the scorer hands back are rows of the store itself. -/
theorem C10_engine_preserves_store (df : List Employee) (now : Timestamp)
    (days_ahead : Nat) (dept_filter : String) :
    (get_upcoming_birthdays_op df now days_ahead dept_filter).2 = df ∧
    (get_work_anniversaries_op df now days_ahead dept_filter).2 = df ∧
    (get_outdated_certifications_op df now dept_filter).2 = df ∧
    (prepare_ml_features_op df).2 = df ∧
    (train_turnover_model_op df).2 = df ∧
    (predict_turnover_risk_op df).2 = df ∧
    (∀ l, predict_turnover_risk df = .ok (some l) → ∀ e ∈ l, e ∈ df) := by
  refine ⟨rfl, rfl, rfl, rfl, rfl, rfl, ?_⟩
  intro l h e he
  unfold predict_turnover_risk at h
  cases htr : train_turnover_model df with
  | none =>
    rw [htr] at h
    simp at h
  | some m =>
    rw [htr] at h
    dsimp only at h
    split_ifs at h with h1 h2
    simp only [Except.ok.injEq, Option.some.injEq] at h
    subst h
    exact List.mem_of_mem_filter he

/-- Witness-style instantiation for C10's conditional clause at a concrete
store: the scorer's rows are store rows.  (The other clauses are
hypothesis-free equalities.) -/
theorem C10_witness :
    (get_upcoming_birthdays_op [empActiveFull] ⟨⟨5, 3, 1⟩, 0⟩ 30 "all").2 =
      [empActiveFull] ∧
    (predict_turnover_risk_op [empActiveFull]).2 = [empActiveFull] :=
  ⟨(C10_engine_preserves_store [empActiveFull] ⟨⟨5, 3, 1⟩, 0⟩ 30 "all").1,
    (C10_engine_preserves_store [empActiveFull] ⟨⟨5, 3, 1⟩, 0⟩ 30 "all").2.2.2.2.2.1⟩
